import Mathlib

/-! Verification of the state-synchronization logic of the Senville/Midea GUI
controller (gui_control.py). The pure fragments of the script are embedded as
Lean functions; the shared mutable device-state object and the per-command
threads are modelled explicitly. -/

namespace Senville

/-- DeviceState: the midea_beautiful appliance-state fields that gui_control.py
reads and writes: state.running, state.mode, state.target_temperature,
state.indoor_temperature, state.fan_speed, state.vertical_swing,
state.horizontal_swing. -/
structure DeviceState where
  running : Bool
  mode : Int
  target_temperature : Int
  indoor_temperature : Int
  fan_speed : Int
  vertical_swing : Bool
  horizontal_swing : Bool
deriving DecidableEq, Repr

/-- The temperature unit radio selection, self.temp_unit, "F" or "C". -/
inductive TempUnit where
  | F : TempUnit
  | C : TempUnit
deriving DecidableEq, Repr

/-- The string the unit renders as in labels. -/
def unitStr : TempUnit → String
  | TempUnit.F => "F"
  | TempUnit.C => "C"

/-- DisplayModel: the widget state update_status_display writes — the seven
status labels plus the control variables mode_var, temp_var, temp_label,
fan_var, vswing_var, hswing_var. The wall-clock last-updated label is time
dependent and kept outside the model. -/
structure DisplayModel where
  power_label : String
  mode_label : String
  target_temp_label : String
  indoor_temp_label : String
  fan_speed_label : String
  vswing_label : String
  hswing_label : String
  mode_var : String
  temp_var : Int
  temp_label : String
  fan_var : String
  vswing_var : Bool
  hswing_var : Bool
deriving DecidableEq, Repr

/-- mode_map of update_status_display: display names for mode codes 1..5, with
the mode_map.get fallback, which formats unknown codes as "Unknown (N)". -/
def modeText (m : Int) : String :=
  if m = 1 then ("Auto")
  else if m = 2 then ("Cool")
  else if m = 3 then ("Dry")
  else if m = 4 then ("Heat")
  else if m = 5 then ("Fan")
  else "Unknown (" ++ toString m ++ ")"

/-- mode_reverse of update_status_display: lowercase selector names for mode
codes 1..5; none for unmapped codes, in which case mode_var is left alone. -/
def modeReverse (m : Int) : Option String :=
  if m = 1 then some ("auto")
  else if m = 2 then some ("cool")
  else if m = 3 then some ("dry")
  else if m = 4 then some ("heat")
  else if m = 5 then some ("fan")
  else none

/-- fan_map of update_status_display: display text for fan codes. Code 100 is
absent from this map, so it falls to the literal-numeral fallback of
fan_map.get(state.fan_speed, f-string of the code). -/
def fanText (f : Int) : String :=
  if f = 20 then ("Low")
  else if f = 40 then ("Med-Low")
  else if f = 60 then ("Medium")
  else if f = 80 then ("Med-High")
  else if f = 102 then ("Auto")
  else toString f

/-- fan_reverse of update_status_display: selector names for fan codes,
including 100 = High; none for unmapped codes, in which case fan_var is left
alone. -/
def fanReverse (f : Int) : Option String :=
  if f = 20 then some ("Low")
  else if f = 40 then some ("Med-Low")
  else if f = 60 then some ("Medium")
  else if f = 80 then some ("Med-High")
  else if f = 100 then some ("High")
  else if f = 102 then some ("Auto")
  else none

/-- mode_map of set_mode: mode_map.get(mode, 1) — symbolic mode name to raw
code, silently defaulting to 1 for names outside the map. -/
def symbolToMode (s : String) : Int :=
  if s = "auto" then 1
  else if s = "cool" then 2
  else if s = "dry" then 3
  else if s = "heat" then 4
  else if s = "fan" then 5
  else 1

/-- fan_map of set_fan_speed: fan_map.get(fan, 102) — symbolic fan name to raw
code, silently defaulting to 102 for names outside the map. -/
def symbolToFan (s : String) : Int :=
  if s = "Auto" then 102
  else if s = "Low" then 20
  else if s = "Med-Low" then 40
  else if s = "Medium" then 60
  else if s = "Med-High" then 80
  else if s = "High" then 100
  else 102

/-- The closed mode vocabulary: the values list of the mode combobox. -/
def modeVocabulary : List String := ["auto", "cool", "heat", "dry", "fan"]

/-- The closed fan vocabulary: the values list of the fan-speed combobox. -/
def fanVocabulary : List String :=
  ["Auto", "Low", "Med-Low", "Medium", "Med-High", "High"]

/-- int(t * 9 / 5 + 32): the Celsius-to-Fahrenheit conversion used by
update_status_display and update_temp_scale. Python's int() cast truncates
toward zero, which on the exact value (9 t + 160) / 5 is Int.tdiv. -/
def celsiusToFahrenheit (t : Int) : Int := Int.tdiv (t * 9 + 160) 5

/-- int((t - 32) * 5 / 9): the Fahrenheit-to-Celsius conversion used by
set_temperature and update_temp_scale, truncating toward zero. -/
def fahrenheitToCelsius (t : Int) : Int := Int.tdiv ((t - 32) * 5) 9

/-- The temperature shown for a Celsius device value under the selected unit:
converted via int(t * 9 / 5 + 32) for Fahrenheit, unchanged for Celsius. -/
def displayedTemp (u : TempUnit) (t : Int) : Int :=
  match u with
  | TempUnit.F => celsiusToFahrenheit t
  | TempUnit.C => t

/-- SenvilleGUI.update_status_display as a pure transformer of the display
model. slider_active is self.temp_slider_active: when it is set, the
temp_var.set and temp_label.config calls are skipped; every other write is
unconditional except the selector updates, which happen only for mapped
codes. -/
def update_status_display (slider_active : Bool) (u : TempUnit) (s : DeviceState)
    (dm : DisplayModel) : DisplayModel :=
  let target := displayedTemp u s.target_temperature
  let indoor := displayedTemp u s.indoor_temperature
  { power_label := if s.running then ("ON") else ("OFF")
    mode_label := modeText s.mode
    target_temp_label := toString target ++ "°" ++ unitStr u
    indoor_temp_label := toString indoor ++ "°" ++ unitStr u
    fan_speed_label := fanText s.fan_speed
    vswing_label := if s.vertical_swing then ("ON") else ("OFF")
    hswing_label := if s.horizontal_swing then ("ON") else ("OFF")
    mode_var := (modeReverse s.mode).getD dm.mode_var
    temp_var := if slider_active then dm.temp_var else target
    temp_label :=
      if slider_active then dm.temp_label else toString target ++ "°" ++ unitStr u
    fan_var := (fanReverse s.fan_speed).getD dm.fan_var
    vswing_var := s.vertical_swing
    hswing_var := s.horizontal_swing }

/-- One cycle of refresh_status's worker thread: a successful fetch hands the
state to update_status_display and the status bar reads "Status updated"; a
failed fetch is caught by the except clause, which only writes
"Error: " plus the message to the status bar and touches nothing else. -/
def refresh_step (fetch : Except String DeviceState) (slider_active : Bool)
    (u : TempUnit) (dm : DisplayModel) : DisplayModel × String :=
  match fetch with
  | Except.ok s => (update_status_display slider_active u s dm, "Status updated")
  | Except.error e => (dm, "Error: " ++ e)

/-- start_auto_refresh's loop: while self.running, schedule one refresh_status
per interval. Each scheduled cycle consumes one fetch outcome; the loop body
never aborts, so every outcome in the list is processed in order. -/
def auto_refresh_loop : List (Except String DeviceState) → Bool → TempUnit →
    DisplayModel → DisplayModel × List String
  | [], _, _, dm => (dm, [])
  | f :: rest, a, u, dm =>
    let step := refresh_step f a u dm
    let r := auto_refresh_loop rest a u step.1
    (r.1, step.2 :: r.2)

/-- update_temp_scale: the slider-value conversion run when the unit radio
button changes. Switching to Celsius converts values above 31 (taken to have
been Fahrenheit) via int((t - 32) * 5 / 9); switching to Fahrenheit converts
values below 60 via int(t * 9 / 5 + 32). -/
def update_temp_scale (new_unit : TempUnit) (v : Int) : Int :=
  match new_unit with
  | TempUnit.C => if v > 31 then fahrenheitToCelsius v else v
  | TempUnit.F => if v < 60 then celsiusToFahrenheit v else v

/-- Heap model for the object aliasing in gui_control.py: device.state is a
single mutable object owned by the connection, and after refresh_status runs
"state = device.state; self.current_state = state" the attribute
current_state refers to that same object. some marks the alias being set;
none models the initial current_state = None. -/
structure App where
  device_state : DeviceState
  current_state : Option Unit
deriving DecidableEq, Repr

/-- Dereference self.current_state: reading through the alias observes the
current contents of the shared device.state object. -/
def read_current_state (a : App) : Option DeviceState :=
  a.current_state.map (fun _ => a.device_state)

/-- refresh_status's assignment self.current_state = device.state. -/
def refresh_assign (a : App) : App :=
  { a with current_state := some () }

/-- set_power's worker thread: device.state.running = power_on, an in-place
field write on the shared object, followed by device.apply(). -/
def set_power (power_on : Bool) (a : App) : App :=
  { a with device_state := { a.device_state with running := power_on } }

/-- set_mode's worker thread: device.state.mode = mode_map.get(mode, 1). -/
def set_mode (mode : String) (a : App) : App :=
  { a with device_state := { a.device_state with mode := symbolToMode mode } }

/-- temp_c of set_temperature: temp when the unit is Celsius, otherwise
int((temp - 32) * 5 / 9). -/
def temp_c (u : TempUnit) (temp : Int) : Int :=
  match u with
  | TempUnit.C => temp
  | TempUnit.F => fahrenheitToCelsius temp

/-- set_temperature's worker thread: device.state.target_temperature = temp_c,
an in-place field write on the shared object. -/
def set_temperature (u : TempUnit) (temp : Int) (a : App) : App :=
  { a with device_state :=
      { a.device_state with target_temperature := temp_c u temp } }

/-- set_fan_speed's worker thread:
device.state.fan_speed = fan_map.get(fan, 102). -/
def set_fan_speed (fan : String) (a : App) : App :=
  { a with device_state := { a.device_state with fan_speed := symbolToFan fan } }

/-- set_vswing's worker thread: device.state.vertical_swing = enabled. -/
def set_vswing (enabled : Bool) (a : App) : App :=
  { a with device_state := { a.device_state with vertical_swing := enabled } }

/-- set_hswing's worker thread: device.state.horizontal_swing = enabled. -/
def set_hswing (enabled : Bool) (a : App) : App :=
  { a with device_state := { a.device_state with horizontal_swing := enabled } }

/-- A concrete device snapshot used as a test fixture. -/
def demoState : DeviceState :=
  { running := false
    mode := 2
    target_temperature := 24
    indoor_temperature := 23
    fan_speed := 60
    vertical_swing := false
    horizontal_swing := false }

/-- A fixture application heap before any refresh has run. -/
def demoApp : App := { device_state := demoState, current_state := none }

/-- Each set_temperature call spawns its own daemon thread whose body writes
device.state and calls apply(); nothing synchronizes the threads, so any
execution order of the outstanding pushes is possible: a schedule is any
permutation of the issued pushes. -/
def isSchedule (issued sched : List Int) : Prop := List.Perm sched issued

/-- Executing a schedule of target-temperature pushes against the device: each
push overwrites the device value with its own payload and performs one
apply() call (counted in the second component). -/
def runSchedule : List Int → Int → Int × Nat
  | [], dev => (dev, 0)
  | v :: rest, _ =>
    let r := runSchedule rest v
    (r.1, r.2 + 1)

/-- Truncation toward zero on rationals: the meaning of Python's int() cast
applied to an exact quotient. -/
def ratTrunc (q : ℚ) : ℤ := if 0 ≤ q then ⌊q⌋ else ⌈q⌉

/-- Rounding to the nearest integer with ties taken upward: the rounding rule
the specification states for the temperature conversions. -/
def roundHalfUp (q : ℚ) : ℤ := ⌊q + 1 / 2⌋

/-- The specification's stated Celsius-to-Fahrenheit map, round(c * 9 / 5 + 32)
with half-up ties, written for comparison with celsiusToFahrenheit. -/
def celsiusToFahrenheitRound (c : ℤ) : ℤ := roundHalfUp ((c : ℚ) * 9 / 5 + 32)

theorem auto_refresh_loop_length (fetches : List (Except String DeviceState))
    (a : Bool) (u : TempUnit) (dm : DisplayModel) :
    (auto_refresh_loop fetches a u dm).2.length = fetches.length := by
  induction fetches generalizing dm with
  | nil => rfl
  | cons f rest ih => simp [auto_refresh_loop, ih]

theorem runSchedule_count (sched : List Int) (dev : Int) :
    (runSchedule sched dev).2 = sched.length := by
  induction sched generalizing dev with
  | nil => rfl
  | cons v rest ih => simp [runSchedule, ih]

theorem tdiv_eq_ratTrunc (a : ℤ) (b : ℕ) (hb : 0 < b) :
    Int.tdiv a (b : ℤ) = ratTrunc ((a : ℚ) / (b : ℚ)) := by
  have hbQ : (0 : ℚ) < (b : ℚ) := by exact_mod_cast hb
  rcases le_or_lt 0 a with ha | ha
  · have haQ : (0 : ℚ) ≤ (a : ℚ) := by exact_mod_cast ha
    rw [Int.tdiv_eq_ediv ha (by exact_mod_cast hb.le)]
    unfold ratTrunc
    rw [if_pos (div_nonneg haQ hbQ.le)]
    exact (Rat.floor_intCast_div_natCast a b).symm
  · have haQ : (a : ℚ) < 0 := by exact_mod_cast ha
    have h1 : Int.tdiv a (b : ℤ) = -Int.tdiv (-a) (b : ℤ) := by
      rw [← Int.neg_tdiv, neg_neg]
    rw [h1, Int.tdiv_eq_ediv (by omega) (by exact_mod_cast hb.le)]
    have hne : ¬ (0 : ℚ) ≤ (a : ℚ) / (b : ℚ) :=
      not_le.mpr (div_neg_of_neg_of_pos haQ hbQ)
    unfold ratTrunc
    rw [if_neg hne]
    have h2 : (a : ℚ) / (b : ℚ) = -(((-a : ℤ) : ℚ) / (b : ℚ)) := by
      push_cast
      ring
    rw [h2, Int.ceil_neg, Rat.floor_intCast_div_natCast]

/-- C1: while the temperature slider is being dragged (temp_slider_active),
update_status_display leaves the editable temperature value — temp_var and
temp_label — exactly as they were, regardless of the fetched state's target
temperature, while every other display field receives the same update it
would receive unguarded; and with no guard held, the temperature editables
are also written from the fetched state. -/
theorem c1_guard_respected (u : TempUnit) (s : DeviceState) (dm : DisplayModel) :
    (update_status_display true u s dm).temp_var = dm.temp_var ∧
    (update_status_display true u s dm).temp_label = dm.temp_label ∧
    (update_status_display true u s dm).power_label =
      (update_status_display false u s dm).power_label ∧
    (update_status_display true u s dm).mode_label =
      (update_status_display false u s dm).mode_label ∧
    (update_status_display true u s dm).target_temp_label =
      (update_status_display false u s dm).target_temp_label ∧
    (update_status_display true u s dm).indoor_temp_label =
      (update_status_display false u s dm).indoor_temp_label ∧
    (update_status_display true u s dm).fan_speed_label =
      (update_status_display false u s dm).fan_speed_label ∧
    (update_status_display true u s dm).vswing_label =
      (update_status_display false u s dm).vswing_label ∧
    (update_status_display true u s dm).hswing_label =
      (update_status_display false u s dm).hswing_label ∧
    (update_status_display true u s dm).mode_var =
      (update_status_display false u s dm).mode_var ∧
    (update_status_display true u s dm).fan_var =
      (update_status_display false u s dm).fan_var ∧
    (update_status_display true u s dm).vswing_var =
      (update_status_display false u s dm).vswing_var ∧
    (update_status_display true u s dm).hswing_var =
      (update_status_display false u s dm).hswing_var ∧
    (update_status_display false u s dm).temp_var =
      displayedTemp u s.target_temperature ∧
    (update_status_display false u s dm).temp_label =
      toString (displayedTemp u s.target_temperature) ++ "°" ++ unitStr u ∧
    (update_status_display false u s dm).power_label =
      (if s.running then ("ON") else ("OFF")) ∧
    (update_status_display false u s dm).mode_label = modeText s.mode ∧
    (update_status_display false u s dm).indoor_temp_label =
      toString (displayedTemp u s.indoor_temperature) ++ "°" ++ unitStr u ∧
    (update_status_display false u s dm).fan_speed_label = fanText s.fan_speed ∧
    (update_status_display false u s dm).vswing_var = s.vertical_swing ∧
    (update_status_display false u s dm).hswing_var = s.horizontal_swing := by
  simp [update_status_display]

/-- C2: when the fetch raises, refresh_step performs no reconciliation — the
display model is returned unchanged and only the status message
"Error: " plus the exception text is produced — and the polling loop goes on:
the failing cycle prepends its message and hands the unchanged model to the
rest of the loop, every scheduled cycle still running its fetch attempt. -/
theorem c2_fetch_failure (e : String) (a : Bool) (u : TempUnit)
    (dm : DisplayModel) (fetches : List (Except String DeviceState)) :
    refresh_step (Except.error e) a u dm = (dm, "Error: " ++ e) ∧
    (auto_refresh_loop (Except.error e :: fetches) a u dm).1 =
      (auto_refresh_loop fetches a u dm).1 ∧
    (auto_refresh_loop (Except.error e :: fetches) a u dm).2 =
      ("Error: " ++ e) :: (auto_refresh_loop fetches a u dm).2 ∧
    (auto_refresh_loop (Except.error e :: fetches) a u dm).2.length =
      fetches.length + 1 := by
  refine ⟨rfl, rfl, rfl, ?_⟩
  rw [auto_refresh_loop_length]
  rfl

/-- C3 counterexample: the symbol-to-code lookups do not fail on a name outside
the fixed vocabulary — mode_map.get and fan_map.get silently produce the
default codes 1 and 102 for the unknown name "bogus". -/
theorem c3_counterexample :
    ("bogus" ∈ modeVocabulary → False) ∧ symbolToMode ("bogus") = 1 ∧
    ("bogus" ∈ fanVocabulary → False) ∧ symbolToFan ("bogus") = 102 := by
  decide

/-- C3 amended: every symbolic name outside the fixed vocabulary is silently
mapped to a default code — 1 (auto) by set_mode's lookup and 102 (Auto) by
set_fan_speed's lookup; no error is raised. -/
theorem c3_amended (s : String) (hm : s ∉ modeVocabulary)
    (hf : s ∉ fanVocabulary) :
    symbolToMode s = 1 ∧ symbolToFan s = 102 := by
  constructor
  · simp only [modeVocabulary, List.mem_cons, List.mem_singleton] at hm
    push_neg at hm
    obtain ⟨h1, h2, h3, h4, h5⟩ := hm
    simp [symbolToMode, h1, h2, h3, h4, h5]
  · simp only [fanVocabulary, List.mem_cons, List.mem_singleton] at hf
    push_neg at hf
    obtain ⟨h1, h2, h3, h4, h5, h6⟩ := hf
    simp [symbolToFan, h1, h2, h3, h4, h5, h6]

/-- C3 amended, witnessed at the concrete unknown name "bogus". -/
theorem c3_amended_witness :
    symbolToMode ("bogus") = 1 ∧ symbolToFan ("bogus") = 102 :=
  c3_amended ("bogus") (by decide) (by decide)

/-- C4 counterexample: the mode-to-symbol translation renders code 99 as
"Unknown (99)" — with a space before the parenthesis — which is not the
claimed exact string "Unknown(99)". -/
theorem c4_counterexample :
    modeText 99 = "Unknown (99)" ∧ modeText 99 ≠ "Unknown(99)" := by
  decide

/-- C4 amended: every mode code outside the fixed enumeration 1..5 renders,
without failing, as the string "Unknown (" followed by the decimal code and a
closing parenthesis. -/
theorem c4_amended (m : Int) (h1 : m ≠ 1) (h2 : m ≠ 2) (h3 : m ≠ 3)
    (h4 : m ≠ 4) (h5 : m ≠ 5) :
    modeText m = "Unknown (" ++ toString m ++ ")" := by
  simp [modeText, h1, h2, h3, h4, h5]

/-- C4 amended, witnessed at code 99. -/
theorem c4_amended_witness :
    modeText 99 = "Unknown (" ++ toString (99 : Int) ++ ")" :=
  c4_amended 99 (by decide) (by decide) (by decide) (by decide) (by decide)

/-- C5 counterexample: through the display-text translation the round trip
fails — modeText 2 is "Cool", which set_mode's lowercase map sends to the
default 1, and fanText 100 is the literal "100" (100 is missing from
fan_map), which set_fan_speed's map sends to the default 102. -/
theorem c5_counterexample :
    symbolToMode (modeText 2) = 1 ∧ (1 : Int) ≠ 2 ∧
    symbolToFan (fanText 100) = 102 ∧ (102 : Int) ≠ 100 := by
  decide

/-- C5 amended: the code round trip holds through the selector-update maps
mode_reverse and fan_reverse for every code of both enumerations; through the
display-text maps it holds only for mode code 1 and the fan codes present in
fan_map, and every fan code outside fan_map renders as its literal numeral. -/
theorem c5_amended :
    (∀ m ∈ ([1, 2, 3, 4, 5] : List Int),
      (modeReverse m).map symbolToMode = some m) ∧
    (∀ f ∈ ([20, 40, 60, 80, 100, 102] : List Int),
      (fanReverse f).map symbolToFan = some f) ∧
    symbolToMode (modeText 1) = 1 ∧
    (∀ f ∈ ([20, 40, 60, 80, 102] : List Int), symbolToFan (fanText f) = f) ∧
    (∀ f : Int, f ≠ 20 → f ≠ 40 → f ≠ 60 → f ≠ 80 → f ≠ 102 →
      fanText f = toString f) := by
  refine ⟨by decide, by decide, by decide, by decide, ?_⟩
  intro f h20 h40 h60 h80 h102
  simp [fanText, h20, h40, h60, h80, h102]

/-- C5 amended, witnessed at mode code 2, fan code 100 and the unmapped fan
code 103. -/
theorem c5_amended_witness :
    (modeReverse 2).map symbolToMode = some 2 ∧
    (fanReverse 100).map symbolToFan = some 100 ∧
    fanText 103 = toString (103 : Int) :=
  ⟨c5_amended.1 2 (by decide), c5_amended.2.1 100 (by decide),
    c5_amended.2.2.2.2 103 (by decide) (by decide) (by decide) (by decide)
      (by decide)⟩

/-- C6 counterexample: at 17 °C the implemented conversion truncates to 62 °F,
while the claimed round-half-up formula gives 63 °F. -/
theorem c6_counterexample :
    celsiusToFahrenheit 17 = 62 ∧ celsiusToFahrenheitRound 17 = 63 ∧
    celsiusToFahrenheit 17 ≠ celsiusToFahrenheitRound 17 := by
  have h1 : celsiusToFahrenheit 17 = 62 := by decide
  have h2 : celsiusToFahrenheitRound 17 = 63 := by
    norm_num [celsiusToFahrenheitRound, roundHalfUp]
  refine ⟨h1, h2, ?_⟩
  rw [h1, h2]
  decide

/-- C6 amended: for every integer input both conversions equal truncation
toward zero of the exact rational formula — celsiusToFahrenheit is
trunc(c * 9 / 5 + 32) and fahrenheitToCelsius is trunc((f - 32) * 5 / 9) —
not rounding to nearest. -/
theorem c6_amended (c : ℤ) :
    celsiusToFahrenheit c = ratTrunc ((c : ℚ) * 9 / 5 + 32) ∧
    fahrenheitToCelsius c = ratTrunc (((c : ℚ) - 32) * 5 / 9) := by
  constructor
  · have h := tdiv_eq_ratTrunc (c * 9 + 160) 5 (by norm_num)
    have e1 : ((5 : ℕ) : ℤ) = (5 : ℤ) := by norm_num
    have e2 : ((c * 9 + 160 : ℤ) : ℚ) / ((5 : ℕ) : ℚ) = (c : ℚ) * 9 / 5 + 32 := by
      push_cast
      ring
    rw [e1, e2] at h
    exact h
  · have h := tdiv_eq_ratTrunc ((c - 32) * 5) 9 (by norm_num)
    have e1 : ((9 : ℕ) : ℤ) = (9 : ℤ) := by norm_num
    have e2 : (((c - 32) * 5 : ℤ) : ℚ) / ((9 : ℕ) : ℚ) =
        ((c : ℚ) - 32) * 5 / 9 := by
      push_cast
      ring
    rw [e1, e2] at h
    exact h

/-- C7: for every Celsius temperature between -10 and 40, converting to
Fahrenheit with the implemented truncating conversion and back differs from
the original by at most one degree. -/
theorem c7_roundtrip (c : Int) (h1 : -10 ≤ c) (h2 : c ≤ 40) :
    (fahrenheitToCelsius (celsiusToFahrenheit c) - c).natAbs ≤ 1 := by
  have H : ∀ x ∈ Finset.Icc (-10 : Int) 40,
      (fahrenheitToCelsius (celsiusToFahrenheit x) - x).natAbs ≤ 1 := by decide
  exact H c (Finset.mem_Icc.mpr ⟨h1, h2⟩)

/-- C7, witnessed at 25 °C. -/
theorem c7_roundtrip_witness :
    (fahrenheitToCelsius (celsiusToFahrenheit 25) - 25).natAbs ≤ 1 :=
  c7_roundtrip 25 (by decide) (by decide)

/-- C8 counterexample: after a refresh makes current_state an alias of
device.state, issuing set_power mutates the shared object in place, so the
snapshot read back through current_state has changed — it is not left
unchanged by command issuance. -/
theorem c8_counterexample :
    read_current_state (set_power true (refresh_assign demoApp)) ≠
      read_current_state (refresh_assign demoApp) ∧
    read_current_state (refresh_assign demoApp) = some demoState := by
  constructor
  · decide
  · rfl

/-- C8 amended: every command worker writes its field directly into the shared
DeviceState object rather than into a fresh copy, so whenever current_state
aliases device.state the snapshot read through it observes the newly written
field value. -/
theorem c8_amended (a : App) (h : a.current_state = some ()) (b : Bool)
    (mode : String) (u : TempUnit) (temp : Int) (fan : String) (vs hs : Bool) :
    read_current_state (set_power b a) =
      some { a.device_state with running := b } ∧
    read_current_state (set_mode mode a) =
      some { a.device_state with mode := symbolToMode mode } ∧
    read_current_state (set_temperature u temp a) =
      some { a.device_state with target_temperature := temp_c u temp } ∧
    read_current_state (set_fan_speed fan a) =
      some { a.device_state with fan_speed := symbolToFan fan } ∧
    read_current_state (set_vswing vs a) =
      some { a.device_state with vertical_swing := vs } ∧
    read_current_state (set_hswing hs a) =
      some { a.device_state with horizontal_swing := hs } := by
  simp [read_current_state, set_power, set_mode, set_temperature, set_fan_speed,
    set_vswing, set_hswing, h]

/-- C8 amended, witnessed on the fixture heap after one refresh. -/
theorem c8_amended_witness :
    read_current_state (set_power true (refresh_assign demoApp)) =
      some { (refresh_assign demoApp).device_state with running := true } :=
  (c8_amended (refresh_assign demoApp) rfl true ("auto") TempUnit.C 24
    ("Auto") false false).1

/-- C9 counterexample: two rapid set_temperature commands with payloads 21 and
25 spawn two unsynchronized threads; the reversed execution order is a legal
schedule, it applies both pushes (two apply() calls, not one), and it leaves
the device at the older payload 21 instead of the latest 25. -/
theorem c9_counterexample :
    isSchedule [21, 25] [25, 21] ∧
    (runSchedule [25, 21] 24).1 = 21 ∧
    (runSchedule [25, 21] 24).2 = 2 ∧
    (21 : Int) ≠ 25 := by
  exact ⟨List.Perm.swap 21 25 [], rfl, rfl, by decide⟩

/-- C9 amended: the command path gives no single-flight guarantee — for any two
rapidly issued payloads the reversed order is a possible schedule, that
schedule ends at the first-issued payload, and every possible schedule
performs one push per issued command (two pushes, never exactly one). -/
theorem c9_amended (v1 v2 dev : Int) :
    isSchedule [v1, v2] [v2, v1] ∧
    (runSchedule [v2, v1] dev).1 = v1 ∧
    (∀ sched, isSchedule [v1, v2] sched → (runSchedule sched dev).2 = 2) := by
  refine ⟨List.Perm.swap v1 v2 [], rfl, ?_⟩
  intro sched hs
  rw [runSchedule_count, hs.length_eq]
  rfl

/-- C9 amended, witnessed with payloads 21 and 25 against a device at 24. -/
theorem c9_amended_witness :
    (runSchedule [25, 21] 24).1 = 21 ∧ (runSchedule [25, 21] 24).2 = 2 :=
  ⟨(c9_amended 21 25 24).2.1,
    (c9_amended 21 25 24).2.2 [25, 21] (List.Perm.swap 21 25 [])⟩

/-- C10 counterexample: the Fahrenheit slider minimum 60 lies in the configured
range 60..87, yet toggling the unit to Celsius converts it to 15, below the
newly configured Celsius minimum 16. -/
theorem c10_counterexample :
    update_temp_scale TempUnit.C 60 = 15 ∧
    ¬ 16 ≤ update_temp_scale TempUnit.C 60 ∧
    60 ≤ (60 : Int) ∧ (60 : Int) ≤ 87 := by
  decide

/-- C10 amended: toggling to Fahrenheit from a Celsius value in 16..31 lands in
60..87; toggling to Celsius from a Fahrenheit value in 60..87 lands in
15..31 — one below the configured minimum because 60 maps to 15 — and from
61..87 it lands inside 16..31. -/
theorem c10_amended (v : Int) :
    (16 ≤ v ∧ v ≤ 31 →
      60 ≤ update_temp_scale TempUnit.F v ∧ update_temp_scale TempUnit.F v ≤ 87) ∧
    (60 ≤ v ∧ v ≤ 87 →
      15 ≤ update_temp_scale TempUnit.C v ∧ update_temp_scale TempUnit.C v ≤ 31) ∧
    (61 ≤ v ∧ v ≤ 87 →
      16 ≤ update_temp_scale TempUnit.C v ∧ update_temp_scale TempUnit.C v ≤ 31) := by
  refine ⟨fun h => ?_, fun h => ?_, fun h => ?_⟩
  · have H : ∀ x ∈ Finset.Icc (16 : Int) 31,
        60 ≤ update_temp_scale TempUnit.F x ∧
          update_temp_scale TempUnit.F x ≤ 87 := by decide
    exact H v (Finset.mem_Icc.mpr h)
  · have H : ∀ x ∈ Finset.Icc (60 : Int) 87,
        15 ≤ update_temp_scale TempUnit.C x ∧
          update_temp_scale TempUnit.C x ≤ 31 := by decide
    exact H v (Finset.mem_Icc.mpr h)
  · have H : ∀ x ∈ Finset.Icc (61 : Int) 87,
        16 ≤ update_temp_scale TempUnit.C x ∧
          update_temp_scale TempUnit.C x ≤ 31 := by decide
    exact H v (Finset.mem_Icc.mpr h)

/-- C10 amended, witnessed at the Celsius value 22 toggled to Fahrenheit. -/
theorem c10_amended_witness :
    60 ≤ update_temp_scale TempUnit.F 22 ∧ update_temp_scale TempUnit.F 22 ≤ 87 :=
  (c10_amended 22).1 ⟨by decide, by decide⟩

end Senville
